import Mathlib

/-
  Verification of the entity caching, lazy-materialization, dirty-tracking
  and set-reconciliation core of the Nitrate client API (api.py).

  Shallow embedding: each Python class relevant to the claims is translated
  into a Lean structure, and each method into a pure state-passing function.
  Remote calls are recorded in an explicit trace (a list of RemoteCall values
  or a call counter) instead of performing IO; exceptions raised by the
  remote layer are modelled by an explicit success flag / Except result.

  The global caching level _cache (CACHE_NONE = 0, CACHE_CHANGES = 1,
  CACHE_OBJECTS = 2, CACHE_ALL = 3) is passed as an explicit argument to the
  functions whose source reads it.
-/

/-- Caching level CACHE_NONE: write object changes immediately to the server. -/
def CACHE_NONE : Nat := 0

/-- Caching level CACHE_CHANGES: changes pushed only by update or destruction. -/
def CACHE_CHANGES : Nat := 1

/-- Caching level CACHE_OBJECTS: loaded objects are kept for future use. -/
def CACHE_OBJECTS : Nat := 2

/-- Caching level CACHE_ALL: where possible, pre-fetch all available objects. -/
def CACHE_ALL : Nat := 3

/-- One remote call issued by the reconciliation engine: either an add of a
set of members to the server-side relation, or a remove.  Mirrors the
`self._add(added)` and `self._remove(removed)` calls in `Container._update`. -/
inductive RemoteCall (α : Type) where
  | add (members : Finset α)
  | remove (members : Finset α)
deriving DecidableEq

/-- True exactly on add calls. -/
def RemoteCall.isAdd {α : Type} : RemoteCall α → Bool
  | RemoteCall.add _ => true
  | RemoteCall.remove _ => false

/-- True exactly on remove calls. -/
def RemoteCall.isRemove {α : Type} : RemoteCall α → Bool
  | RemoteCall.add _ => false
  | RemoteCall.remove _ => true

/-- State of a loaded `Container` (api.py class Container): the live working
set `_current`, the last-reconciled baseline `_original`, and the `_modified`
flag inherited from `Mutable`.  The unloaded state (both sets NitrateNone) is
outside the scope of the container claims, which all start from a loaded
container, so `current` and `original` are plain sets here. -/
structure Container (α : Type) where
  current : Finset α
  original : Finset α
  modified : Bool
deriving DecidableEq

/-- Embedding of `Container._update` (api.py lines 1405-1416): compute
`added = current - original`, call `_add(added)` if non-empty, compute
`removed = original - current`, call `_remove(removed)` if non-empty, then
save the current state as the original.  Returns the new container state and
the trace of remote calls in the order they were issued. -/
def Container._update {α : Type} [DecidableEq α] (s : Container α) :
    Container α × List (RemoteCall α) :=
  let added := s.current \ s.original
  let addCalls := if added.Nonempty then [RemoteCall.add added] else []
  let removed := s.original \ s.current
  let removeCalls := if removed.Nonempty then [RemoteCall.remove removed] else []
  ({ s with original := s.current }, addCalls ++ removeCalls)

/-- Embedding of `Container.add` (api.py lines 1363-1378): normalize the
items to a set, and if any of them are new, union them into `_current`, then
either mark the container modified (when `_cache` is non-zero) or push the
change immediately via `_update`. -/
def Container.add {α : Type} [DecidableEq α] (cache : Nat) (s : Container α)
    (items : Finset α) : Container α × List (RemoteCall α) :=
  if (items \ s.current).Nonempty then
    let s1 : Container α := { s with current := s.current ∪ items }
    if cache ≠ 0 then ({ s1 with modified := true }, [])
    else Container._update s1
  else (s, [])

/-- Embedding of `Container.remove` (api.py lines 1380-1395): normalize the
items to a set, and if any of them are present, subtract them from
`_current`, then either mark the container modified (when `_cache` is
non-zero) or push the change immediately via `_update`. -/
def Container.remove {α : Type} [DecidableEq α] (cache : Nat) (s : Container α)
    (items : Finset α) : Container α × List (RemoteCall α) :=
  if (items ∩ s.current).Nonempty then
    let s1 : Container α := { s with current := s.current \ items }
    if cache ≠ 0 then ({ s1 with modified := true }, [])
    else Container._update s1
  else (s, [])

/-- Embedding of the inherited `Mutable.update` (api.py lines 1288-1292) as
invoked on a `Container`: if the container is modified, run
`Container._update` and then clear the modified flag; otherwise do nothing. -/
def Container.update {α : Type} [DecidableEq α] (s : Container α) :
    Container α × List (RemoteCall α) :=
  if s.modified then
    let r := Container._update s
    ({ r.1 with modified := false }, r.2)
  else (s, [])

/-- Fallible embedding of `Container._update`: the remote `_add` call
succeeds iff `addOk`, the remote `_remove` call succeeds iff `removeOk`.
On a failure the Python method raises before reaching the
`self._original = set(self._current)` line, so the state is returned
unchanged; the Bool in the result records whether the method completed
normally, and the list records the remote calls issued before (and
including) the failing one. -/
def Container._updateF {α : Type} [DecidableEq α] (addOk removeOk : Bool)
    (s : Container α) : Container α × Bool × List (RemoteCall α) :=
  let added := s.current \ s.original
  if added.Nonempty ∧ addOk = false then
    (s, false, [RemoteCall.add added])
  else
    let addCalls := if added.Nonempty then [RemoteCall.add added] else []
    let removed := s.original \ s.current
    if removed.Nonempty ∧ removeOk = false then
      (s, false, addCalls ++ [RemoteCall.remove removed])
    else
      let removeCalls := if removed.Nonempty then [RemoteCall.remove removed] else []
      ({ s with original := s.current }, true, addCalls ++ removeCalls)

/-- Fallible embedding of `Mutable.update` on a container: if modified, run
`Container._updateF`; only when it completes normally is the modified flag
cleared — an exception propagates past the `self._modified = False` line,
leaving the flag set. -/
def Container.updateF {α : Type} [DecidableEq α] (addOk removeOk : Bool)
    (s : Container α) : Container α × Bool × List (RemoteCall α) :=
  if s.modified then
    let r := Container._updateF addOk removeOk s
    if r.2.1 then ({ r.1 with modified := false }, true, r.2.2)
    else r
  else (s, true, [])

/-- State of a plain `Mutable` entity (api.py class Mutable): the
`_modified` flag plus a counter of how many times the type-specific remote
update routine `_update` has been invoked (the remote-call trace of the
entity). -/
structure Mutable where
  modified : Bool
  updates : Nat
deriving DecidableEq

/-- Embedding of `Mutable.update` (api.py lines 1288-1292): if modified,
invoke `_update` (counted) and clear the flag; otherwise a no-op. -/
def Mutable.update (s : Mutable) : Mutable :=
  if s.modified then { modified := false, updates := s.updates + 1 } else s

/-- Fallible embedding of `Mutable.update`: the remote `_update` routine
succeeds iff `ok`.  On failure the exception propagates before the
`self._modified = False` line, so the state is unchanged. -/
def Mutable.updateE (ok : Bool) (s : Mutable) : Except Unit Mutable :=
  if s.modified then
    if ok then Except.ok { modified := false, updates := s.updates + 1 }
    else Except.error ()
  else Except.ok s

/-- Embedding of `Mutable.__del__` (api.py lines 1277-1282): try to update,
and on any failure only log it (the Bool in the result records whether a
failure was logged).  The result type still allows an exceptional outcome
(`Except.error`) so that the claim that the destructor never propagates an
error is a genuine theorem about the bare `except` clause, not a typing
artifact. -/
def Mutable.del (ok : Bool) (s : Mutable) : Except Unit (Mutable × Bool) :=
  match Mutable.updateE ok s with
  | Except.ok s1 => Except.ok (s1, false)
  | Except.error _ => Except.ok (s, true)

/-- State of one lazily-loaded read-write field of a mutable entity, as seen
by the generated accessors `_getter(field)` and `_setter(field)`:
`value = none` models the NitrateNone sentinel, `modified` is the entity
dirty flag, `remoteUpdates` counts invocations of the entity `_update`
routine and `fetches` counts invocations of `_get`. -/
structure FieldState (β : Type) where
  value : Option β
  modified : Bool
  remoteUpdates : Nat
  fetches : Nat
deriving DecidableEq

/-- Embedding of the setter produced by `_setter(field)` (api.py lines
198-223): initialize the attribute via `_get` unless already done (the
fetch stores `fetched`), then update only if the new value differs from the
stored one; on a change, either remember the modified state (when `_cache`
is non-zero) or save immediately via `_update`. -/
def FieldState.setter {β : Type} [DecidableEq β] (cache : Nat) (fetched : β)
    (s : FieldState β) (v : β) : FieldState β :=
  let s1 := if s.value = none then
      { s with value := some fetched, fetches := s.fetches + 1 }
    else s
  if s1.value ≠ some v then
    let s2 := { s1 with value := some v }
    if cache ≠ 0 then { s2 with modified := true }
    else { s2 with remoteUpdates := s2.remoteUpdates + 1 }
  else s1

/-- The server-side record backing one Build, as returned by the remote
calls in `Build._get`: `Build.get(id)` answers with the build name and
product id, `Build.check_build(name, product)` answers with the build id. -/
structure ServerBuild where
  name : String
  product_id : Nat
  build_id : Nat
deriving DecidableEq

/-- State of a `Build` entity (api.py class Build): `_id`, `_name` and
`_product` are each either the NitrateNone sentinel (`none`) or
materialized; the nested Product reference is represented by its numeric
product id.  `fetches` counts invocations of `Build._get`. -/
structure Build where
  id : Option Nat
  name : Option String
  product : Option Nat
  fetches : Nat
deriving DecidableEq

/-- Embedding of `Build.__init__` in the initialized-by-id case (api.py
lines 426-445): `_name` and `_product` are set to NitrateNone and `_id` to
the given id. -/
def Build.initById (i : Nat) : Build :=
  { id := some i, name := none, product := none, fetches := 0 }

/-- Embedding of `Build._get` (api.py lines 455-483): when `_id` is set,
fetch by id and populate `_name` and `_product` from the returned hash in
one step; otherwise search by product and name, which populates `_id` from
the `check_build` response. -/
def Build._get (server : ServerBuild) (s : Build) : Build :=
  if s.id ≠ none then
    { s with name := some server.name, product := some server.product_id,
             fetches := s.fetches + 1 }
  else
    { s with id := some server.build_id, fetches := s.fetches + 1 }

/-- Embedding of reading the `name` property generated by `_getter("name")`
(api.py lines 181-196): if the stored value is the sentinel, call `_get`,
then return the stored value. -/
def Build.readName (server : ServerBuild) (s : Build) : Option String × Build :=
  if s.name = none then
    let s1 := Build._get server s
    (s1.name, s1)
  else (s.name, s)

/-- Embedding of reading the `product` property generated by
`_getter("product")`: if the stored value is the sentinel, call `_get`,
then return the stored value. -/
def Build.readProduct (server : ServerBuild) (s : Build) : Option Nat × Build :=
  if s.product = none then
    let s1 := Build._get server s
    (s1.product, s1)
  else (s.product, s)

/-- The process-wide world state relevant to `Category` construction:
`categories` mirrors the class-level registry `Category._categories`
(category id mapped to the cached instance, instances being represented by
allocation tokens), `nextTok` is the next fresh allocation token,
`inits` counts executions of the `Category.__init__` body past its
cached-already early return, and `remoteCalls` counts remote calls made
during construction (Category construction never fetches, so it stays 0). -/
structure CatWorld where
  categories : List (Nat × Nat)
  nextTok : Nat
  inits : Nat
  remoteCalls : Nat
deriving DecidableEq

/-- Embedding of `Category.__new__` plus `Category.__init__` in the
initialized-by-id case (api.py lines 515-554): when `_cache` is at least
CACHE_OBJECTS and an id is given, return the cached instance if present
(its `__init__` early-returns because `_id` is already set), else allocate,
cache and initialize a fresh instance; below CACHE_OBJECTS, always allocate
and initialize a fresh instance and leave the registry untouched. -/
def Category.construct (cache : Nat) (w : CatWorld) (i : Nat) : Nat × CatWorld :=
  if 2 ≤ cache then
    match w.categories.lookup i with
    | some tok => (tok, w)
    | none =>
        (w.nextTok,
         { categories := (i, w.nextTok) :: w.categories,
           nextTok := w.nextTok + 1, inits := w.inits + 1,
           remoteCalls := w.remoteCalls })
  else
    (w.nextTok, { w with nextTok := w.nextTok + 1, inits := w.inits + 1 })

/-- A server-side user record as returned by `User.filter`: the fields of
the hash that `User._get` reads. -/
structure ServerUser where
  id : Nat
  username : String
  email : String
  first_name : String
  last_name : String
deriving DecidableEq

/-- A local `User` instance: `_id` plus the lazily-loaded `_login`,
`_email` and `_name` attributes (`none` is the NitrateNone sentinel; the
`name` field is doubly optional because `User._get` can materialize it to
the real None when first or last name is empty). -/
structure UserInst where
  id : Nat
  login : Option String
  email : Option String
  name : Option (Option String)
deriving DecidableEq

/-- Embedding of `User._get(hash)` (api.py lines 1167-1176) applied to a
fresh instance: materialize every field from the server record; the name is
the real None unless both first and last name are non-empty. -/
def User.fromHash (u : ServerUser) : UserInst :=
  { id := u.id, login := some u.username, email := some u.email,
    name := some (if u.first_name ≠ "" ∧ u.last_name ≠ ""
                  then some (u.first_name ++ " " ++ u.last_name) else none) }

/-- A fresh identity-only `User` instance as produced by `User.__init__`
when only an id is given: every data field is the NitrateNone sentinel. -/
def User.identityOnly (uid : Nat) : UserInst :=
  { id := uid, login := none, email := none, name := none }

/-- The process-wide world state for `User` construction: `users` mirrors
the class-level registry `User._users`, and `bulkCalls` counts the bulk
`User.filter(curly-empty)` prefetch calls. -/
structure UserWorld where
  users : List (Nat × UserInst)
  bulkCalls : Nat
deriving DecidableEq

/-- The cached-or-fresh step shared by `User.__new__` when `_cache` is at
least CACHE_OBJECTS and an id is given: return the registered instance if
present, else register and return a fresh identity-only instance. -/
def User.lookupOrInsert (w : UserWorld) (uid : Nat) : UserInst × UserWorld :=
  match w.users.lookup uid with
  | some inst => (inst, w)
  | none =>
      (User.identityOnly uid,
       { w with users := (uid, User.identityOnly uid) :: w.users })

/-- Embedding of `User.__new__` plus `User.__init__` in the
constructed-by-id case with no hash argument (api.py lines 1063-1105).
When `_cache` is CACHE_ALL and the registry is still empty, one bulk
`User.filter` call materializes and registers every server user.  A Python 2
scoping quirk is embedded faithfully: the bulk loop rebinds the local
variable `hash`, so when the loop body ran at least once (server list
non-empty) the subsequent `hash is None` test fails and the triggering
construction itself returns a fresh unregistered identity-only instance
instead of consulting the registry. -/
def User.constructById (cache : Nat) (server : List ServerUser)
    (w : UserWorld) (uid : Nat) : UserInst × UserWorld :=
  if cache = 3 ∧ w.users = [] then
    let w1 : UserWorld :=
      { users := server.map (fun u => (u.id, User.fromHash u)),
        bulkCalls := w.bulkCalls + 1 }
    if server = [] then
      if 2 ≤ cache then User.lookupOrInsert w1 uid
      else (User.identityOnly uid, w1)
    else
      (User.identityOnly uid, w1)
  else
    if 2 ≤ cache then User.lookupOrInsert w uid
    else (User.identityOnly uid, w)

/-- The P5 scenario of the specification run against the embedded container
operations at a buffered caching level (CACHE_OBJECTS): starting from a
loaded container whose current and original sets are both the pair of a and
b, apply remove b, add c, remove a, add b, then flush via the inherited
update.  Returns the final container state and the concatenated trace of
all remote calls issued along the way. -/
def Container.p5run {α : Type} [DecidableEq α] (a b c : α) :
    Container α × List (RemoteCall α) :=
  let r1 := Container.remove 2 ⟨{a, b}, {a, b}, false⟩ {b}
  let r2 := Container.add 2 r1.1 {c}
  let r3 := Container.remove 2 r2.1 {a}
  let r4 := Container.add 2 r3.1 {b}
  let rf := Container.update r4.1
  (rf.1, r1.2 ++ r2.2 ++ r3.2 ++ r4.2 ++ rf.2)

/-- The concrete entity classes appearing in the equality claim; any two
subclasses of `Nitrate` behave alike for equality and hashing. -/
inductive EntityClass where
  | build | category | user | product | testplan
deriving DecidableEq

/-- A `Nitrate` object with a materialized numeric id: the concrete class
tag together with the id. -/
structure Entity where
  cls : EntityClass
  id : Nat
deriving DecidableEq

/-- Embedding of `Nitrate.__eq__` (api.py lines 380-383) restricted to
Nitrate-derived operands (the isinstance test holds): compare ids only. -/
def Nitrate.eq (x y : Entity) : Bool := x.id == y.id

/-- Embedding of `Nitrate.__ne__` (api.py lines 385-388) restricted to
Nitrate-derived operands: compare ids only. -/
def Nitrate.ne (x y : Entity) : Bool := x.id != y.id

/-- Embedding of `Nitrate.__hash__` (api.py lines 390-392): the object id
is the hash. -/
def Nitrate.hash (x : Entity) : Nat := x.id

/-- Claim C8: flushing a mutable entity is idempotent — `update` invokes the
remote update routine only when the dirty flag is set and then clears it, so
two consecutive flushes with no intervening mutation issue at most one
remote update call, and flushing a non-dirty entity issues none. -/
theorem C8_flush_idempotent (s : Mutable) :
    Mutable.update (Mutable.update s) = Mutable.update s ∧
    (Mutable.update (Mutable.update s)).updates ≤ s.updates + 1 ∧
    (Mutable.update s).modified = false ∧
    (s.modified = false → Mutable.update s = s) := by
  by_cases h : s.modified <;>
    simp [Mutable.update, h]

/-- Witness for C8 at a dirty entity with no prior updates. -/
theorem C8_flush_idempotent_witness :
    Mutable.update ⟨false, 1⟩ = ⟨false, 1⟩ :=
  (C8_flush_idempotent ⟨false, 1⟩).2.2.2 rfl

/-- Claim C9: the discard-time flush never propagates an error — for every
failure mode of the update attempt, `del` returns normally (an `Except.ok`
result), and when the update attempt fails the error is only logged and the
state is returned unchanged. -/
theorem C9_del_never_propagates (ok : Bool) (s : Mutable) :
    (∃ r, Mutable.del ok s = Except.ok r) ∧
    (Mutable.updateE ok s = Except.error () → Mutable.del ok s = Except.ok (s, true)) := by
  constructor
  · unfold Mutable.del
    cases h : Mutable.updateE ok s <;> simp
  · intro h
    unfold Mutable.del
    rw [h]

/-- Witness for C9 at a dirty entity whose remote update fails. -/
theorem C9_del_never_propagates_witness :
    Mutable.del false ⟨true, 0⟩ = Except.ok (⟨true, 0⟩, true) :=
  (C9_del_never_propagates false ⟨true, 0⟩).2 rfl

/-- Claim C10: entity equality and hashing ignore the concrete entity type —
two Nitrate objects with materialized numeric ids compare equal iff their
ids are equal, inequality is the negation, the hash is the id itself, and in
particular a Build and a Category carrying the same numeric id compare equal
and hash alike. -/
theorem C10_eq_hash_ignore_class (x y : Entity) (n : Nat) :
    (Nitrate.eq x y = true ↔ x.id = y.id) ∧
    Nitrate.ne x y = (!Nitrate.eq x y) ∧
    Nitrate.hash x = x.id ∧
    (Nitrate.eq x y = true → Nitrate.hash x = Nitrate.hash y) ∧
    Nitrate.eq ⟨EntityClass.build, n⟩ ⟨EntityClass.category, n⟩ = true ∧
    Nitrate.hash ⟨EntityClass.build, n⟩ = Nitrate.hash ⟨EntityClass.category, n⟩ := by
  refine ⟨by simp [Nitrate.eq], rfl, rfl, ?_, by simp [Nitrate.eq], rfl⟩
  intro h
  simpa [Nitrate.eq, Nitrate.hash] using h

/-- Witness for C10: a Build and a Category with id 5 compare equal. -/
theorem C10_eq_hash_ignore_class_witness :
    Nitrate.hash ⟨EntityClass.build, 5⟩ = Nitrate.hash ⟨EntityClass.category, 5⟩ :=
  (C10_eq_hash_ignore_class ⟨EntityClass.build, 5⟩ ⟨EntityClass.category, 5⟩ 5).2.2.2.1
    (by decide)

/-- Claim C4: writing a value equal to the currently stored value of a
read-write field is a complete no-op; writing a different value stores it
and, when the caching level is not NONE, sets the dirty flag, while at level
NONE it invokes the remote update routine once and leaves the dirty flag
untouched (so it stays false when it was false). -/
theorem C4_setter_behavior {β : Type} [DecidableEq β] (cache : Nat)
    (fetched : β) (s : FieldState β) (v w : β) :
    (s.value = some v → FieldState.setter cache fetched s v = s) ∧
    (s.value = some w → w ≠ v → cache ≠ 0 →
       FieldState.setter cache fetched s v =
         { s with value := some v, modified := true }) ∧
    (s.value = some w → w ≠ v → cache = 0 →
       FieldState.setter cache fetched s v =
         { s with value := some v, remoteUpdates := s.remoteUpdates + 1 } ∧
       (FieldState.setter cache fetched s v).modified = s.modified) := by
  refine ⟨?_, ?_, ?_⟩
  · intro h
    simp [FieldState.setter, h]
  · intro h hw hc
    simp [FieldState.setter, h, hw, hc]
  · intro h hw hc
    constructor <;> simp [FieldState.setter, h, hw, hc]

/-- Witness for C4: at level NONE, overwriting a stored 1 with 2 stores the
new value and bumps the remote update counter. -/
theorem C4_setter_behavior_witness :
    FieldState.setter 0 7 (⟨some 1, false, 0, 0⟩ : FieldState ℕ) 2 =
      ⟨some 2, false, 1, 0⟩ ∧
    (FieldState.setter 0 7 (⟨some 1, false, 0, 0⟩ : FieldState ℕ) 2).modified = false :=
  (C4_setter_behavior 0 7 ⟨some 1, false, 0, 0⟩ 2 1).2.2 rfl (by decide) rfl

/-- Claim C5: on an identity-only Build, the first read of either lazily
loaded field triggers exactly one fetch which populates all fields in one
step, and a subsequent read of the other field triggers zero additional
fetches. -/
theorem C5_single_fetch (server : ServerBuild) (i : Nat) :
    ((Build.readName server (Build.initById i)).1 = some server.name ∧
     (Build.readName server (Build.initById i)).2.fetches = 1 ∧
     (Build.readName server (Build.initById i)).2.name = some server.name ∧
     (Build.readName server (Build.initById i)).2.product = some server.product_id ∧
     (Build.readProduct server (Build.readName server (Build.initById i)).2).1
       = some server.product_id ∧
     (Build.readProduct server (Build.readName server (Build.initById i)).2).2
       = (Build.readName server (Build.initById i)).2) ∧
    ((Build.readProduct server (Build.initById i)).1 = some server.product_id ∧
     (Build.readProduct server (Build.initById i)).2.fetches = 1 ∧
     (Build.readName server (Build.readProduct server (Build.initById i)).2).1
       = some server.name ∧
     (Build.readName server (Build.readProduct server (Build.initById i)).2).2
       = (Build.readProduct server (Build.initById i)).2) := by
  simp [Build.readName, Build.readProduct, Build.initById, Build._get]

/-- Claim C6: at caching level OBJECTS or above, constructing a Category
twice with the same id yields the same shared instance, the second
construction changing nothing in the world (no remote call, no
re-initialization); below OBJECTS every construction yields a fresh,
independent instance and the registry is never touched. -/
theorem C6_category_registry (cache : Nat) (w : CatWorld) (i : Nat) :
    (2 ≤ cache →
       (Category.construct cache (Category.construct cache w i).2 i).1
         = (Category.construct cache w i).1 ∧
       (Category.construct cache (Category.construct cache w i).2 i).2
         = (Category.construct cache w i).2) ∧
    (cache < 2 →
       (Category.construct cache (Category.construct cache w i).2 i).1
         ≠ (Category.construct cache w i).1 ∧
       (Category.construct cache w i).2.categories = w.categories ∧
       (Category.construct cache (Category.construct cache w i).2 i).2.categories
         = w.categories) := by
  constructor
  · intro h
    cases hl : w.categories.lookup i with
    | some tok => simp [Category.construct, h, hl]
    | none => simp [Category.construct, h, hl, List.lookup]
  · intro h
    have h2 : ¬ 2 ≤ cache := by omega
    simp [Category.construct, h2]

/-- Witness for C6: at level OBJECTS, two constructions of Category 7 from
an empty world share the instance and the second changes nothing. -/
theorem C6_category_registry_witness :
    (Category.construct 2 (Category.construct 2 ⟨[], 0, 0, 0⟩ 7).2 7).1
      = (Category.construct 2 ⟨[], 0, 0, 0⟩ 7).1 ∧
    (Category.construct 2 (Category.construct 2 ⟨[], 0, 0, 0⟩ 7).2 7).2
      = (Category.construct 2 ⟨[], 0, 0, 0⟩ 7).2 :=
  (C6_category_registry 2 ⟨[], 0, 0, 0⟩ 7).1 (by decide)

/-- Claim C2: a container flush issues exactly one add call carrying
`current - original` when that set is non-empty and none otherwise, exactly
one remove call carrying `original - current` when that set is non-empty and
none otherwise, any add call precedes any remove call, the baseline is reset
to the current set, and a container with `current = original` issues no
remote calls at all. -/
theorem C2_flush_calls {α : Type} [DecidableEq α] (s : Container α) :
    ((s.current \ s.original).Nonempty →
       (Container._update s).2.filter RemoteCall.isAdd
         = [RemoteCall.add (s.current \ s.original)]) ∧
    (¬ (s.current \ s.original).Nonempty →
       (Container._update s).2.filter RemoteCall.isAdd = []) ∧
    ((s.original \ s.current).Nonempty →
       (Container._update s).2.filter RemoteCall.isRemove
         = [RemoteCall.remove (s.original \ s.current)]) ∧
    (¬ (s.original \ s.current).Nonempty →
       (Container._update s).2.filter RemoteCall.isRemove = []) ∧
    (∀ i j, i < (Container._update s).2.length →
       j < (Container._update s).2.length →
       ((Container._update s).2.getD i (RemoteCall.add ∅)).isAdd = true →
       ((Container._update s).2.getD j (RemoteCall.add ∅)).isRemove = true →
       i < j) ∧
    (Container._update s).1.original = s.current ∧
    (s.current = s.original → (Container._update s).2 = []) := by
  have hl : (Container._update s).2
      = ((if (s.current \ s.original).Nonempty
          then [RemoteCall.add (s.current \ s.original)] else []) ++
         (if (s.original \ s.current).Nonempty
          then [RemoteCall.remove (s.original \ s.current)] else [])) := rfl
  have horig : (Container._update s).1.original = s.current := rfl
  by_cases ha : (s.current \ s.original).Nonempty
  · by_cases hr : (s.original \ s.current).Nonempty
    · have hc : (Container._update s).2
          = [RemoteCall.add (s.current \ s.original),
             RemoteCall.remove (s.original \ s.current)] := by
        rw [hl, if_pos ha, if_pos hr]
        rfl
      refine ⟨fun _ => ?_, fun h => absurd ha h, fun _ => ?_,
        fun h => absurd hr h, ?_, horig, fun h => absurd ha (by simp [h])⟩
      · rw [hc]
        simp [List.filter, RemoteCall.isAdd, RemoteCall.isRemove]
      · rw [hc]
        simp [List.filter, RemoteCall.isAdd, RemoteCall.isRemove]
      · intro i j hi hj hadd hrem
        rw [hc] at hi hj hadd hrem
        simp only [List.length_cons, List.length_nil] at hi hj
        interval_cases i <;> interval_cases j <;>
          simp_all [RemoteCall.isAdd, RemoteCall.isRemove, List.getD]
    · have hc : (Container._update s).2
          = [RemoteCall.add (s.current \ s.original)] := by
        rw [hl, if_pos ha, if_neg hr]
        rfl
      refine ⟨fun _ => ?_, fun h => absurd ha h, fun h => absurd h hr,
        fun _ => ?_, ?_, horig, fun h => absurd ha (by simp [h])⟩
      · rw [hc]
        simp [List.filter, RemoteCall.isAdd, RemoteCall.isRemove]
      · rw [hc]
        simp [List.filter, RemoteCall.isAdd, RemoteCall.isRemove]
      · intro i j hi hj hadd hrem
        rw [hc] at hi hj hadd hrem
        simp only [List.length_cons, List.length_nil] at hi hj
        interval_cases i
        interval_cases j
        simp_all [RemoteCall.isAdd, RemoteCall.isRemove, List.getD]
  · by_cases hr : (s.original \ s.current).Nonempty
    · have hc : (Container._update s).2
          = [RemoteCall.remove (s.original \ s.current)] := by
        rw [hl, if_neg ha, if_pos hr]
        rfl
      refine ⟨fun h => absurd h ha, fun _ => ?_, fun _ => ?_,
        fun h => absurd hr h, ?_, horig, fun h => absurd hr (by simp [h])⟩
      · rw [hc]
        simp [List.filter, RemoteCall.isAdd, RemoteCall.isRemove]
      · rw [hc]
        simp [List.filter, RemoteCall.isAdd, RemoteCall.isRemove]
      · intro i j hi hj hadd hrem
        rw [hc] at hi hj hadd hrem
        simp only [List.length_cons, List.length_nil] at hi hj
        interval_cases i
        interval_cases j
        simp_all [RemoteCall.isAdd, RemoteCall.isRemove, List.getD]
    · have hc : (Container._update s).2 = [] := by
        rw [hl, if_neg ha, if_neg hr]
        rfl
      refine ⟨fun h => absurd h ha, fun _ => ?_, fun h => absurd h hr,
        fun _ => ?_, ?_, horig, fun _ => hc⟩
      · rw [hc]
        rfl
      · rw [hc]
        rfl
      · intro i j hi hj hadd hrem
        rw [hc] at hi
        simp at hi

/-- Witness for C2: flushing a container with current set containing 1 and 2
and baseline containing 2 and 3 issues exactly one add call carrying the
added members. -/
theorem C2_flush_calls_witness :
    (Container._update (⟨{1, 2}, {2, 3}, true⟩ : Container ℕ)).2.filter RemoteCall.isAdd
      = [RemoteCall.add (({1, 2} : Finset ℕ) \ {2, 3})] :=
  (C2_flush_calls ⟨{1, 2}, {2, 3}, true⟩).1 (by decide)

/-- Claim C3: when during a container flush the add call succeeds but the
remove call raises, the error propagates (the flush reports failure), the
baseline and the modified flag are untouched, the add call was already
issued, and the next flush resubmits the full outstanding delta including
the already-applied add portion. -/
theorem C3_partial_failure_retry {α : Type} [DecidableEq α] (s : Container α)
    (hm : s.modified = true)
    (ha : (s.current \ s.original).Nonempty)
    (hr : (s.original \ s.current).Nonempty) :
    (Container.updateF true false s).2.1 = false ∧
    (Container.updateF true false s).1.original = s.original ∧
    (Container.updateF true false s).1.modified = true ∧
    (Container.updateF true false s).2.2
      = [RemoteCall.add (s.current \ s.original),
         RemoteCall.remove (s.original \ s.current)] ∧
    (Container.updateF true true (Container.updateF true false s).1).2.2
      = [RemoteCall.add (s.current \ s.original),
         RemoteCall.remove (s.original \ s.current)] := by
  have h1 : Container.updateF true false s
      = (s, false, [RemoteCall.add (s.current \ s.original),
          RemoteCall.remove (s.original \ s.current)]) := by
    simp [Container.updateF, Container._updateF, hm, ha, hr]
  refine ⟨by rw [h1], by rw [h1], by rw [h1]; exact hm, by rw [h1], ?_⟩
  rw [h1]
  simp [Container.updateF, Container._updateF, hm, ha, hr]

/-- Witness for C3 at a container whose working set contains 1 and whose
baseline contains 2. -/
theorem C3_partial_failure_retry_witness :
    (Container.updateF true false (⟨{1}, {2}, true⟩ : Container ℕ)).2.1 = false ∧
    (Container.updateF true false (⟨{1}, {2}, true⟩ : Container ℕ)).1.original
      = ({2} : Finset ℕ) ∧
    (Container.updateF true false (⟨{1}, {2}, true⟩ : Container ℕ)).1.modified = true ∧
    (Container.updateF true false (⟨{1}, {2}, true⟩ : Container ℕ)).2.2
      = [RemoteCall.add (({1} : Finset ℕ) \ {2}),
         RemoteCall.remove (({2} : Finset ℕ) \ {1})] ∧
    (Container.updateF true true
        (Container.updateF true false (⟨{1}, {2}, true⟩ : Container ℕ)).1).2.2
      = [RemoteCall.add (({1} : Finset ℕ) \ {2}),
         RemoteCall.remove (({2} : Finset ℕ) \ {1})] :=
  C3_partial_failure_retry ⟨{1}, {2}, true⟩ rfl (by decide) (by decide)

/-- Looking up the id of a listed server user in the bulk-populated registry
finds its materialized instance, provided server user ids are unique. -/
theorem User.lookup_fromHash (server : List ServerUser) (u : ServerUser)
    (hmem : u ∈ server) (hnd : (server.map ServerUser.id).Nodup) :
    (server.map (fun v => (v.id, User.fromHash v))).lookup u.id
      = some (User.fromHash u) := by
  induction server with
  | nil => cases hmem
  | cons v rest ih =>
      simp only [List.map_cons, List.nodup_cons] at hnd
      rcases List.mem_cons.mp hmem with h | h
      · subst h
        simp [List.lookup]
      · have hne : u.id ≠ v.id := by
          intro he
          exact hnd.1 (he ▸ List.mem_map_of_mem ServerUser.id h)
        simp only [List.map_cons, List.lookup]
        rw [show (u.id == v.id) = false from beq_eq_false_iff_ne.mpr hne]
        exact ih h hnd.2

/-- Claim C7: at caching level ALL, the first User construction from an
empty registry bulk-populates the registry for the whole type in one bulk
remote call, and a subsequent lookup of the id of any prefetched user issues
no further bulk call, changes nothing, and returns the already-materialized
instance (its login is populated) rather than a fresh identity-only one. -/
theorem C7_user_prefetch (server : List ServerUser) (u : ServerUser) (uid0 : Nat)
    (hs : server ≠ []) (hmem : u ∈ server)
    (hnd : (server.map ServerUser.id).Nodup) :
    (User.constructById 3 server ⟨[], 0⟩ uid0).2.users
      = server.map (fun v => (v.id, User.fromHash v)) ∧
    (User.constructById 3 server ⟨[], 0⟩ uid0).2.bulkCalls = 1 ∧
    User.constructById 3 server (User.constructById 3 server ⟨[], 0⟩ uid0).2 u.id
      = (User.fromHash u, (User.constructById 3 server ⟨[], 0⟩ uid0).2) ∧
    (User.fromHash u).login = some u.username := by
  have h1 : User.constructById 3 server ⟨[], 0⟩ uid0
      = (User.identityOnly uid0,
         ⟨server.map (fun v => (v.id, User.fromHash v)), 1⟩) := by
    simp [User.constructById, hs]
  refine ⟨by rw [h1], by rw [h1], ?_, rfl⟩
  rw [h1]
  have hne : server.map (fun v => (v.id, User.fromHash v)) ≠ [] := by
    simpa using hs
  simp only [User.constructById]
  rw [if_neg (by simp [hne]), if_pos (by omega)]
  simp [User.lookupOrInsert, User.lookup_fromHash server u hmem hnd]

/-- Witness for C7 with a one-user server. -/
theorem C7_user_prefetch_witness :
    (User.constructById 3 [⟨4, "joe", "joe@x", "Joe", "Doe"⟩] ⟨[], 0⟩ 4).2.users
      = [⟨4, "joe", "joe@x", "Joe", "Doe"⟩].map (fun v => (v.id, User.fromHash v)) ∧
    (User.constructById 3 [⟨4, "joe", "joe@x", "Joe", "Doe"⟩] ⟨[], 0⟩ 4).2.bulkCalls = 1 ∧
    User.constructById 3 [⟨4, "joe", "joe@x", "Joe", "Doe"⟩]
        (User.constructById 3 [⟨4, "joe", "joe@x", "Joe", "Doe"⟩] ⟨[], 0⟩ 4).2
        (⟨4, "joe", "joe@x", "Joe", "Doe"⟩ : ServerUser).id
      = (User.fromHash ⟨4, "joe", "joe@x", "Joe", "Doe"⟩,
         (User.constructById 3 [⟨4, "joe", "joe@x", "Joe", "Doe"⟩] ⟨[], 0⟩ 4).2) ∧
    (User.fromHash ⟨4, "joe", "joe@x", "Joe", "Doe"⟩).login = some "joe" :=
  C7_user_prefetch [⟨4, "joe", "joe@x", "Joe", "Doe"⟩] ⟨4, "joe", "joe@x", "Joe", "Doe"⟩ 4
    (by simp) (by simp) (by simp)

/-- Counterexample to claim C1 as stated: in the P5 scenario with a = 1,
b = 2, c = 3, the flush issues its single add call with members containing
only 3 (that is, only c), and no add call with members containing 2 and 3
(b and c) is ever issued — contrary to the claimed add call with members
b and c. -/
theorem C1_claim_counterexample :
    (Container.p5run (1 : ℕ) 2 3).2
      = [RemoteCall.add {3}, RemoteCall.remove {1}] ∧
    RemoteCall.add ({2, 3} : Finset ℕ) ∉ (Container.p5run (1 : ℕ) 2 3).2 := by
  decide

/-- Claim C1 (amended): for a relation container whose loaded set holds a
and b, applying remove b, add c, remove a, add b in sequence and then
flushing results in exactly one remote add call with members containing
only c and exactly one remote remove call with members containing only a —
the net delta from the pair of a and b to the pair of b and c adds only c,
since b is already part of the baseline. -/
theorem C1_net_delta_amended {α : Type} [DecidableEq α] (a b c : α)
    (hab : a ≠ b) (hac : a ≠ c) (hbc : b ≠ c) :
    (Container.p5run a b c).2 = [RemoteCall.add {c}, RemoteCall.remove {a}] := by
  have e1 : ({a, b} : Finset α) \ {b} = {a} := by
    ext x
    simp only [Finset.mem_sdiff, Finset.mem_insert, Finset.mem_singleton]
    constructor
    · rintro ⟨h | h, hnb⟩
      · exact h
      · exact absurd h hnb
    · rintro rfl
      exact ⟨Or.inl rfl, hab⟩
  have g1 : (({b} : Finset α) ∩ {a, b}).Nonempty := ⟨b, by simp⟩
  have h1 : Container.remove 2 (⟨{a, b}, {a, b}, false⟩ : Container α) {b}
      = (⟨{a}, {a, b}, true⟩, []) := by
    simp [Container.remove, g1, e1]
  have g2 : (({c} : Finset α) \ {a}).Nonempty := ⟨c, by simp [Ne.symm hac]⟩
  have h2 : Container.add 2 (⟨{a}, {a, b}, true⟩ : Container α) {c}
      = (⟨{a, c}, {a, b}, true⟩, []) := by
    simp [Container.add, g2, ← Finset.insert_eq]
  have e3 : ({a, c} : Finset α) \ {a} = {c} := by
    ext x
    simp only [Finset.mem_sdiff, Finset.mem_insert, Finset.mem_singleton]
    constructor
    · rintro ⟨h | h, hna⟩
      · exact absurd h hna
      · exact h
    · rintro rfl
      exact ⟨Or.inr rfl, Ne.symm hac⟩
  have g3 : (({a} : Finset α) ∩ {a, c}).Nonempty := ⟨a, by simp⟩
  have h3 : Container.remove 2 (⟨{a, c}, {a, b}, true⟩ : Container α) {a}
      = (⟨{c}, {a, b}, true⟩, []) := by
    simp [Container.remove, g3, e3]
  have g4 : (({b} : Finset α) \ {c}).Nonempty := ⟨b, by simp [hbc]⟩
  have h4 : Container.add 2 (⟨{c}, {a, b}, true⟩ : Container α) {b}
      = (⟨{c, b}, {a, b}, true⟩, []) := by
    simp [Container.add, g4, ← Finset.insert_eq]
  have eAdd : ({c, b} : Finset α) \ {a, b} = {c} := by
    ext x
    simp only [Finset.mem_sdiff, Finset.mem_insert, Finset.mem_singleton]
    constructor
    · rintro ⟨h | h, hn⟩
      · exact h
      · exact absurd (Or.inr h) hn
    · rintro rfl
      exact ⟨Or.inl rfl, by
        rintro (h | h)
        · exact hac h.symm
        · exact hbc h.symm⟩
  have eRem : ({a, b} : Finset α) \ {c, b} = {a} := by
    ext x
    simp only [Finset.mem_sdiff, Finset.mem_insert, Finset.mem_singleton]
    constructor
    · rintro ⟨h | h, hn⟩
      · exact h
      · exact absurd (Or.inr h) hn
    · rintro rfl
      exact ⟨Or.inl rfl, by
        rintro (h | h)
        · exact hac h
        · exact hab h⟩
  have h5 : Container.update (⟨{c, b}, {a, b}, true⟩ : Container α)
      = (⟨{c, b}, {c, b}, false⟩, [RemoteCall.add {c}, RemoteCall.remove {a}]) := by
    simp [Container.update, Container._update, eAdd, eRem]
  simp [Container.p5run, h1, h2, h3, h4, h5]

/-- Witness for the amended C1 at a = 1, b = 2, c = 3. -/
theorem C1_net_delta_amended_witness :
    (Container.p5run (1 : ℕ) 2 3).2
      = [RemoteCall.add {3}, RemoteCall.remove {1}] :=
  C1_net_delta_amended 1 2 3 (by decide) (by decide) (by decide)
